import Mathlib

/-!
Shallow embedding of the BugBoard AI client SDK's stuck-agent detector
(`BugBoardAgent` in the TypeScript source) together with proofs about the
specified behaviour.

Modelling conventions:
* The mutable field `retryState : RetryDetectionState` of the class is threaded
  explicitly through every method; a method of the class becomes a function
  taking the immutable configuration (`BugBoardAgent`), the external report
  sink and the state, and returning the updated state.
* `Date.now()` is modelled by an explicit `now : Nat` parameter per method call
  (millisecond timestamps).  The two `Date.now()` reads inside one synchronous
  `trackOutput` call (the `lastActivity` write and the elapsed-time read of
  `checkForStuckAgent`) happen in the same instant and are modelled by the one
  `now` of that call.
* The external report sink (`axios.post` to the bug endpoint) is modelled as a
  function from the posted JSON body to `Except String String`: `.ok id` is a
  success response carrying the identifier, `.error e` a transport/HTTP
  failure (the thrown error).
* The `async` escalation is modelled as running to completion before the next
  operation of a trace, matching the single-threaded model of the spec; every
  automatic report attempt is recorded (by its reason string) in an
  instrumentation list so that "exactly one automatic report" is expressible.
-/

/-- The bug-report payload accepted by `reportBug` (interface `BugData`). -/
structure BugData where
  input : String
  logs : String
  error : Option String := none
deriving DecidableEq

/-- The JSON body posted to the report sink by `reportBug`. -/
structure BugPostBody where
  agentName : String
  input : String
  logs : String
  error : Option String
  timestamp : Nat
deriving DecidableEq

/-- The detector's transient state (interface `RetryDetectionState`). -/
structure RetryDetectionState where
  outputs : List String
  buildFailures : Nat
  lastActivity : Nat
deriving DecidableEq

/-- The immutable part of the `BugBoardAgent` class: its configuration fields
`apiUrl`, `agentName` and the tunable `timeoutMs`. -/
structure BugBoardAgent where
  apiUrl : String
  agentName : String
  timeoutMs : Nat
deriving DecidableEq

/-- Constructor of `BugBoardAgent`: `apiUrl` defaults to the production
endpoint and the timeout defaults to 300000 ms (5 minutes). -/
def mkBugBoardAgent (apiUrl : Option String) (agentName : String) : BugBoardAgent :=
  { apiUrl := apiUrl.getD "https://bugboard.ai/api"
    agentName := agentName
    timeoutMs := 300000 }

/-- `setTimeout(timeoutMs)`: replaces the timeout threshold. -/
def setCustomTimeout (agent : BugBoardAgent) (timeoutMs : Nat) : BugBoardAgent :=
  { agent with timeoutMs := timeoutMs }

/-- The external report sink: maps the posted body to the sink's outcome. -/
def ReportSink : Type := BugPostBody → Except String String

/-- The result of a successful `reportBug` call. -/
structure ReportResult where
  id : String
  url : String
deriving DecidableEq

/-- JavaScript `String.replace` with a string pattern: replaces only the first
occurrence of `pat` in `s` by `rep` (on `List Char`). -/
def replaceFirstList (s pat rep : List Char) : List Char :=
  match s with
  | [] => if pat.isPrefixOf ([] : List Char) then rep else []
  | c :: rest =>
    if pat.isPrefixOf (c :: rest) then rep ++ (c :: rest).drop pat.length
    else c :: replaceFirstList rest pat rep

/-- JavaScript `s.replace(pat, rep)` (string pattern, first occurrence only)
lifted to `String`. -/
def jsReplaceFirst (s pat rep : String) : String :=
  ⟨replaceFirstList s.data pat.data rep.data⟩

/-- The JSON body `reportBug` posts to `POST apiUrl/bugs`. -/
def postBody (agent : BugBoardAgent) (now : Nat) (data : BugData) : BugPostBody :=
  { agentName := agent.agentName
    input := data.input
    logs := data.logs
    error := data.error
    timestamp := now }

/-- `reportBug(data)`: posts the payload to the sink; on success returns the
identifier and the derived URL `apiUrl.replace('/api', '') ++ "/bugs/" ++ id`;
on failure the error is logged and rethrown (modelled by `.error`). -/
def reportBug (agent : BugBoardAgent) (sink : ReportSink) (now : Nat)
    (data : BugData) : Except String ReportResult :=
  match sink (postBody agent now data) with
  | .ok i => .ok { id := i, url := jsReplaceFirst agent.apiUrl "/api" "" ++ "/bugs/" ++ i }
  | .error e => .error e

/-- `reportBug` with the detector state threaded through: the method body never
reads or writes `retryState`, so the state component is returned unchanged. -/
def reportBugWithState (agent : BugBoardAgent) (sink : ReportSink) (now : Nat)
    (data : BugData) (s : RetryDetectionState) :
    Except String ReportResult × RetryDetectionState :=
  (reportBug agent sink now data, s)

/-- `resetRetryDetection()`: clears the state. -/
def resetRetryDetection (now : Nat) (_s : RetryDetectionState) : RetryDetectionState :=
  { outputs := [], buildFailures := 0, lastActivity := now }

/-- The `BugData` an automatic report submits: the output history joined into
a log blob and the reason recorded in the `error` field. -/
def autoBugData (reason : String) (s : RetryDetectionState) : BugData :=
  { input := "Auto-detected issue"
    logs := String.intercalate "\n\n--- Next Output ---\n\n" s.outputs
    error := some ("Auto-reported: " ++ reason ++ ". Build failures: "
      ++ toString s.buildFailures) }

/-- `autoReportBug(reason)`: joins the output history into a log blob, submits
an automatic report, resets the state on success, and on failure only logs the
error (it is caught, never rethrown). -/
def autoReportBug (agent : BugBoardAgent) (sink : ReportSink) (now : Nat)
    (reason : String) (s : RetryDetectionState) : RetryDetectionState :=
  match reportBug agent sink now (autoBugData reason s) with
  | .ok _ => resetRetryDetection now s
  | .error _ => s

/-- `checkForStuckAgent()`: first the timeout check against `lastActivity`,
then (otherwise) the three-in-a-row repetition check on `outputs.slice(-3)`.
The second component records the reasons of the automatic report attempts made
during the call. -/
def checkForStuckAgent (agent : BugBoardAgent) (sink : ReportSink) (now : Nat)
    (s : RetryDetectionState) : RetryDetectionState × List String :=
  if (now : Int) - (s.lastActivity : Int) > (agent.timeoutMs : Int) then
    (autoReportBug agent sink now "Agent timed out" s, ["Agent timed out"])
  else
    if 3 ≤ s.outputs.length then
      match s.outputs.drop (s.outputs.length - 3) with
      | [a, b, c] =>
        if a = b ∧ b = c then
          (autoReportBug agent sink now "Agent stuck in output loop" s,
            ["Agent stuck in output loop"])
        else (s, [])
      | _ => (s, [])
    else (s, [])

/-- `trackOutput(output)`: pushes the output, updates `lastActivity`, keeps
only the last 5 outputs (a `shift` evicts the oldest), then runs the
stuck-check. -/
def trackOutput (agent : BugBoardAgent) (sink : ReportSink) (now : Nat)
    (output : String) (s : RetryDetectionState) : RetryDetectionState × List String :=
  let s1 : RetryDetectionState :=
    { s with outputs := s.outputs ++ [output], lastActivity := now }
  let s2 : RetryDetectionState :=
    if 5 < s1.outputs.length then { s1 with outputs := s1.outputs.drop 1 } else s1
  checkForStuckAgent agent sink now s2

/-- `trackBuildFailure()`: increments `buildFailures`, updates `lastActivity`,
and triggers an automatic report once the counter reaches the threshold 3. -/
def trackBuildFailure (agent : BugBoardAgent) (sink : ReportSink) (now : Nat)
    (s : RetryDetectionState) : RetryDetectionState × List String :=
  let s1 : RetryDetectionState :=
    { s with buildFailures := s.buildFailures + 1, lastActivity := now }
  if 3 ≤ s1.buildFailures then
    (autoReportBug agent sink now "Multiple build failures detected" s1,
      ["Multiple build failures detected"])
  else (s1, [])

/-- The state a freshly constructed (or freshly reset) detector holds. -/
def initialRetryState (now : Nat) : RetryDetectionState :=
  { outputs := [], buildFailures := 0, lastActivity := now }

/-- One externally visible operation on a detector instance, carrying the
wall-clock instant of the call and the sink behaviour seen by any report the
operation submits. -/
inductive AgentOp where
  | trackOut (output : String) (sink : ReportSink) (now : Nat)
  | trackFail (sink : ReportSink) (now : Nat)
  | reset (now : Nat)
  | manualReport (data : BugData) (sink : ReportSink) (now : Nat)

/-- Runs one operation; the second component lists the reasons of the
automatic reports attempted during it. -/
def runOp (agent : BugBoardAgent) (s : RetryDetectionState) :
    AgentOp → RetryDetectionState × List String
  | .trackOut o sink now => trackOutput agent sink now o s
  | .trackFail sink now => trackBuildFailure agent sink now s
  | .reset now => (resetRetryDetection now s, [])
  | .manualReport data sink now => ((reportBugWithState agent sink now data s).2, [])

/-- Runs a sequence of operations, concatenating the automatic-report logs. -/
def runOps (agent : BugBoardAgent) (s : RetryDetectionState) :
    List AgentOp → RetryDetectionState × List String
  | [] => (s, [])
  | op :: rest =>
    let r1 := runOp agent s op
    let r2 := runOps agent r1.1 rest
    (r2.1, r1.2 ++ r2.2)

/-- The last `n` elements of a list, in order. -/
def takeLast (n : Nat) (l : List α) : List α :=
  l.drop (l.length - n)

/-- Ghost observer for the bounded-history invariant: the outputs tracked since
the most recent reset event (explicit reset, construction, or the state reset
performed by a successful automatic report), replaying the detector semantics.
A reset during `trackOut` is recognised by the post-state's empty history (a
non-resetting `trackOut` always leaves the just-pushed output at the end), and
a reset during `trackFail` by the post-state's zero counter (a non-resetting
`trackFail` leaves the just-incremented, hence positive, counter). -/
def outputsSinceReset (agent : BugBoardAgent) (s : RetryDetectionState)
    (acc : List String) : List AgentOp → List String
  | [] => acc
  | op :: rest =>
    let s1 := (runOp agent s op).1
    let acc1 : List String :=
      match op with
      | .trackOut o _ _ => if s1.outputs.isEmpty then [] else acc ++ [o]
      | .trackFail _ _ => if s1.buildFailures = 0 then [] else acc
      | .reset _ => []
      | .manualReport _ _ _ => acc
    outputsSinceReset agent s1 acc1 rest

/-! ### Derived characterisations and helper lemmas -/

/-- Derived predicate: the repetition test of `checkForStuckAgent` evaluated on
an output history — at least three entries and the last three pairwise equal. -/
def lastThreeRepeat (l : List String) : Bool :=
  if 3 ≤ l.length then
    match l.drop (l.length - 3) with
    | [a, b, c] => a == b && b == c
    | _ => false
  else false

theorem takeLast_length_le (n : Nat) (l : List α) : (takeLast n l).length ≤ n := by
  simp only [takeLast, List.length_drop]
  omega

theorem takeLast_nil (n : Nat) : takeLast n ([] : List α) = [] := by
  unfold takeLast
  simp

theorem drop_sub_append (X : List α) (x : α) (k : Nat) :
    (X ++ [x]).drop ((X ++ [x]).length - (k + 1)) = X.drop (X.length - k) ++ [x] := by
  have h : (X ++ [x]).length - (k + 1) = X.length - k := by
    simp only [List.length_append, List.length_singleton]
    omega
  rw [h, List.drop_append_of_le_length (by omega)]

theorem drop_one_last_three (l : List α) (h : 4 ≤ l.length) :
    (l.drop 1).drop ((l.drop 1).length - 3) = l.drop (l.length - 3) := by
  rw [List.drop_drop]
  congr 1
  simp only [List.length_drop]
  omega

theorem trim_push_ne_nil (X : List α) (o : α) :
    (if 5 < (X ++ [o]).length then (X ++ [o]).drop 1 else X ++ [o]) ≠ [] := by
  by_cases h5 : 5 < (X ++ [o]).length
  · rw [if_pos h5]
    intro hc
    have hlen := congrArg List.length hc
    simp only [List.length_drop, List.length_append, List.length_singleton,
      List.length_nil] at hlen
    simp only [List.length_append, List.length_singleton] at h5
    omega
  · rw [if_neg h5]
    simp

theorem takeLast_push (acc : List α) (o : α) (outs : List α)
    (h : outs = takeLast 5 acc) :
    (if 5 < (outs ++ [o]).length then (outs ++ [o]).drop 1 else outs ++ [o])
      = takeLast 5 (acc ++ [o]) := by
  by_cases hlen : acc.length ≤ 4
  · have houts : outs = acc := by
      rw [h]
      unfold takeLast
      have h0 : acc.length - 5 = 0 := by omega
      rw [h0, List.drop_zero]
    rw [houts]
    have hc : ¬ 5 < (acc ++ [o]).length := by
      simp only [List.length_append, List.length_singleton]
      omega
    rw [if_neg hc]
    unfold takeLast
    have h0 : (acc ++ [o]).length - 5 = 0 := by
      simp only [List.length_append, List.length_singleton]
      omega
    rw [h0, List.drop_zero]
  · have houtslen : outs.length = 5 := by
      rw [h]
      unfold takeLast
      simp only [List.length_drop]
      omega
    have hc : 5 < (outs ++ [o]).length := by
      simp only [List.length_append, List.length_singleton]
      omega
    rw [if_pos hc, List.drop_append_of_le_length (by omega), h]
    unfold takeLast
    rw [List.drop_drop]
    have hle : (acc ++ [o]).length - 5 ≤ acc.length := by
      simp only [List.length_append, List.length_singleton]
      omega
    rw [List.drop_append_of_le_length hle]
    congr 2
    simp only [List.length_append, List.length_singleton]
    omega

theorem lastThreeRepeat_drop_one (l : List String) (h4 : 4 ≤ l.length) :
    lastThreeRepeat (l.drop 1) = lastThreeRepeat l := by
  unfold lastThreeRepeat
  have h3 : 3 ≤ (l.drop 1).length := by
    simp only [List.length_drop]
    omega
  rw [if_pos h3, if_pos (by omega), drop_one_last_three l h4]

theorem autoReportBug_ok (agent : BugBoardAgent) (sink : ReportSink) (now : Nat)
    (reason : String) (s : RetryDetectionState) (i : String)
    (h : sink (postBody agent now (autoBugData reason s)) = .ok i) :
    autoReportBug agent sink now reason s = initialRetryState now := by
  unfold autoReportBug reportBug
  rw [h]
  rfl

theorem autoReportBug_error (agent : BugBoardAgent) (sink : ReportSink) (now : Nat)
    (reason : String) (s : RetryDetectionState) (e : String)
    (h : sink (postBody agent now (autoBugData reason s)) = .error e) :
    autoReportBug agent sink now reason s = s := by
  unfold autoReportBug reportBug
  rw [h]

theorem checkForStuckAgent_at_now (agent : BugBoardAgent) (sink : ReportSink)
    (now : Nat) (s : RetryDetectionState) (h : s.lastActivity = now) :
    checkForStuckAgent agent sink now s =
      (if lastThreeRepeat s.outputs then
        (autoReportBug agent sink now "Agent stuck in output loop" s,
          ["Agent stuck in output loop"])
      else (s, [])) := by
  unfold checkForStuckAgent
  have hto : ¬ ((now : Int) - (s.lastActivity : Int) > (agent.timeoutMs : Int)) := by
    rw [h]
    omega
  rw [if_neg hto]
  unfold lastThreeRepeat
  by_cases h3 : 3 ≤ s.outputs.length
  · simp only [if_pos h3]
    rcases hD : s.outputs.drop (s.outputs.length - 3) with _ | ⟨a, _ | ⟨b, _ | ⟨c, _ | d⟩⟩⟩
    · simp
    · simp
    · simp
    · by_cases hab : a = b ∧ b = c
      · simp [hab]
      · simp only [if_neg hab]
        have : (a == b && b == c) = false := by
          rcases Decidable.not_and_iff_or_not.mp hab with h1 | h1 <;> simp [h1]
        simp [this]
    · simp
  · simp only [if_neg h3]
    simp

theorem trackOutput_eq (agent : BugBoardAgent) (sink : ReportSink) (now : Nat)
    (o : String) (s : RetryDetectionState) :
    trackOutput agent sink now o s =
      (let P' : List String :=
        if 5 < (s.outputs ++ [o]).length then (s.outputs ++ [o]).drop 1
        else s.outputs ++ [o]
       let s2 : RetryDetectionState :=
        { outputs := P', buildFailures := s.buildFailures, lastActivity := now }
       if lastThreeRepeat (s.outputs ++ [o]) then
         (autoReportBug agent sink now "Agent stuck in output loop" s2,
           ["Agent stuck in output loop"])
       else (s2, [])) := by
  unfold trackOutput
  simp only []
  by_cases h5 : 5 < (s.outputs ++ [o]).length
  · simp only [if_pos h5]
    rw [checkForStuckAgent_at_now agent sink now _ rfl]
    have hrw : lastThreeRepeat ((s.outputs ++ [o]).drop 1)
        = lastThreeRepeat (s.outputs ++ [o]) := by
      apply lastThreeRepeat_drop_one
      omega
    simp only [hrw]
  · simp only [if_neg h5]
    rw [checkForStuckAgent_at_now agent sink now _ rfl]

theorem trackOutput_no_fire (agent : BugBoardAgent) (sink : ReportSink) (now : Nat)
    (o : String) (s : RetryDetectionState)
    (h : lastThreeRepeat (s.outputs ++ [o]) = false) :
    trackOutput agent sink now o s =
      ({ outputs := if 5 < (s.outputs ++ [o]).length then (s.outputs ++ [o]).drop 1
                    else s.outputs ++ [o]
         buildFailures := s.buildFailures
         lastActivity := now }, []) := by
  rw [trackOutput_eq]
  simp [h]

theorem trackOutput_fire (agent : BugBoardAgent) (sink : ReportSink) (now : Nat)
    (o : String) (s : RetryDetectionState)
    (h : lastThreeRepeat (s.outputs ++ [o]) = true) :
    trackOutput agent sink now o s =
      (autoReportBug agent sink now "Agent stuck in output loop"
        { outputs := if 5 < (s.outputs ++ [o]).length then (s.outputs ++ [o]).drop 1
                     else s.outputs ++ [o]
          buildFailures := s.buildFailures
          lastActivity := now },
       ["Agent stuck in output loop"]) := by
  rw [trackOutput_eq]
  simp [h]

theorem lastThreeRepeat_short (l : List String) (h : l.length < 3) :
    lastThreeRepeat l = false := by
  unfold lastThreeRepeat
  rw [if_neg (by omega)]

theorem drop_append_three (X : List α) (x y z : α) :
    (X ++ [x, y, z]).drop ((X ++ [x, y, z]).length - 3) = [x, y, z] := by
  have h : (X ++ [x, y, z]).length - 3 = X.length := by
    simp only [List.length_append]
    simp
  rw [h, List.drop_append_of_le_length (le_refl _), List.drop_length,
    List.nil_append]

theorem lastThreeRepeat_aaa (a : String) : lastThreeRepeat [a, a, a] = true := by
  unfold lastThreeRepeat
  simp

theorem drop_two_shape (X : List α) (h : 2 ≤ X.length) :
    ∃ W u v, X.drop (X.length - 2) = [u, v] ∧ X = W ++ [v] := by
  have hlen : (X.drop (X.length - 2)).length = 2 := by
    simp only [List.length_drop]
    omega
  obtain ⟨u, v, huv⟩ := List.length_eq_two.mp hlen
  refine ⟨X.take (X.length - 2) ++ [u], u, v, huv, ?_⟩
  have hX := (List.take_append_drop (X.length - 2) X).symm
  rw [huv] at hX
  rw [List.append_assoc]
  exact hX

theorem drop_one_shape (X : List α) (h : 1 ≤ X.length) :
    ∃ W v, X.drop (X.length - 1) = [v] ∧ X = W ++ [v] := by
  have hlen : (X.drop (X.length - 1)).length = 1 := by
    simp only [List.length_drop]
    omega
  obtain ⟨v, hv⟩ := List.length_eq_one.mp hlen
  refine ⟨X.take (X.length - 1), v, hv, ?_⟩
  have hX := (List.take_append_drop (X.length - 1) X).symm
  rw [hv] at hX
  exact hX

theorem not_ends_drop (X : List α) (a : α) (n : Nat)
    (h : ∀ W, X ≠ W ++ [a]) : ∀ W, X.drop n ≠ W ++ [a] := by
  intro W hc
  apply h (X.take n ++ W)
  conv_lhs => rw [(List.take_append_drop n X).symm]
  rw [hc, List.append_assoc]

theorem lastThreeRepeat_push_false (X : List String) (a : String)
    (h : ∀ W, X ≠ W ++ [a]) : lastThreeRepeat (X ++ [a]) = false := by
  unfold lastThreeRepeat
  by_cases h3 : 3 ≤ (X ++ [a]).length
  · rw [if_pos h3]
    have h2 : 2 ≤ X.length := by
      simp only [List.length_append, List.length_singleton] at h3
      omega
    obtain ⟨W, u, v, huv, hXv⟩ := drop_two_shape X h2
    have hD : (X ++ [a]).drop ((X ++ [a]).length - 3) = [u, v, a] := by
      rw [drop_sub_append X a 2, huv]
      rfl
    rw [hD]
    have hva : (v == a) = false := by
      have : v ≠ a := fun hv => h W (by rw [← hv]; exact hXv)
      simp [this]
    simp [hva]
  · rw [if_neg h3]

theorem lastThreeRepeat_push2_false (X : List String) (a : String)
    (h : ∀ W, X ≠ W ++ [a]) : lastThreeRepeat ((X ++ [a]) ++ [a]) = false := by
  unfold lastThreeRepeat
  by_cases h3 : 3 ≤ ((X ++ [a]) ++ [a]).length
  · rw [if_pos h3]
    have h1 : 1 ≤ X.length := by
      simp only [List.length_append, List.length_singleton] at h3
      omega
    obtain ⟨W, v, hv, hXv⟩ := drop_one_shape X h1
    have hD : ((X ++ [a]) ++ [a]).drop (((X ++ [a]) ++ [a]).length - 3)
        = [v, a, a] := by
      rw [drop_sub_append (X ++ [a]) a 2, drop_sub_append X a 1, hv]
      rfl
    rw [hD]
    have hva : (v == a) = false := by
      have : v ≠ a := fun hv2 => h W (by rw [← hv2]; exact hXv)
      simp [this]
    simp [hva]
  · rw [if_neg h3]

theorem lastThreeRepeat_aab_false (X : List String) (a b : String) (hab : a ≠ b) :
    lastThreeRepeat (((X ++ [a]) ++ [a]) ++ [b]) = false := by
  have hX : ((X ++ [a]) ++ [a]) ++ [b] = X ++ [a, a, b] := by
    simp
  rw [hX]
  unfold lastThreeRepeat
  rw [if_pos (by simp only [List.length_append]; simp)]
  rw [drop_append_three X a a b]
  have hba : (a == b) = false := by simp [hab]
  simp [hba]

theorem trim_push_shape (X : List α) (a : α) :
    ∃ Y, (if 5 < (X ++ [a]).length then (X ++ [a]).drop 1 else X ++ [a])
        = Y ++ [a] ∧ (Y = X ∨ (5 ≤ X.length ∧ Y = X.drop 1)) := by
  by_cases h5 : 5 < (X ++ [a]).length
  · refine ⟨X.drop 1, ?_, Or.inr ⟨?_, rfl⟩⟩
    · rw [if_pos h5, List.drop_append_of_le_length ?_]
      simp only [List.length_append, List.length_singleton] at h5
      omega
    · simp only [List.length_append, List.length_singleton] at h5
      omega
  · exact ⟨X, by rw [if_neg h5], Or.inl rfl⟩

/-! ### Claims -/

/-- Claim C1: the claim says that with `timeoutMs = 100`, calling
`trackOutput("a")`, waiting 150 ms, and calling `trackOutput("a")` again takes
the timeout branch and yields one automatic report with reason
"Agent timed out".  The code however sets `lastActivity` to the current time
at the start of `trackOutput`, before `checkForStuckAgent` reads it, so the
elapsed time the timeout check measures is always zero: the reason
"Agent timed out" is unreachable from `trackOutput` (first conjunct), and the
claimed scenario produces no automatic report at all (second conjunct). -/
theorem claim_C1_timeout_branch_unreachable :
    (∀ (agent : BugBoardAgent) (sink : ReportSink) (now : Nat) (o : String)
      (s : RetryDetectionState),
      (trackOutput agent sink now o s).2 = [] ∨
      (trackOutput agent sink now o s).2 = ["Agent stuck in output loop"]) ∧
    runOps (setCustomTimeout (mkBugBoardAgent none "agent") 100)
      (initialRetryState 0)
      [.trackOut "a" (fun _ => Except.ok "1") 0,
       .trackOut "a" (fun _ => Except.ok "1") 150]
      = ({ outputs := ["a", "a"], buildFailures := 0, lastActivity := 150 }, []) := by
  constructor
  · intro agent sink now o s
    rw [trackOutput_eq]
    cases hF : lastThreeRepeat (s.outputs ++ [o])
    · left
      simp
    · right
      simp
  · decide

/-- Claim C2 counterexample: a concrete run in which the automatic report
attempt completes with a failure and the detector state does not return to the
initial empty form — `buildFailures` stays 3 instead of 0. -/
theorem claim_C2_counterexample :
    (runOps (mkBugBoardAgent none "agent") (initialRetryState 0)
      [.trackFail (fun _ => Except.error "network down") 1,
       .trackFail (fun _ => Except.error "network down") 2,
       .trackFail (fun _ => Except.error "network down") 3]).2
      = ["Multiple build failures detected"] ∧
    (runOps (mkBugBoardAgent none "agent") (initialRetryState 0)
      [.trackFail (fun _ => Except.error "network down") 1,
       .trackFail (fun _ => Except.error "network down") 2,
       .trackFail (fun _ => Except.error "network down") 3]).1.buildFailures
      = 3 := by
  decide

/-- Claim C2 (amended): the Escalating-to-Idle reset is conditional on the
submission outcome: when the sink accepts the automatic report the state is
reset to its initial empty form, and when the sink fails the state is left
exactly as it was (only the error is logged). -/
theorem claim_C2_reset_on_success_only (agent : BugBoardAgent) (sink : ReportSink)
    (now : Nat) (reason : String) (s : RetryDetectionState) :
    (∀ i, sink (postBody agent now (autoBugData reason s)) = .ok i →
      autoReportBug agent sink now reason s = initialRetryState now) ∧
    (∀ e, sink (postBody agent now (autoBugData reason s)) = .error e →
      autoReportBug agent sink now reason s = s) :=
  ⟨fun i h => autoReportBug_ok agent sink now reason s i h,
   fun e h => autoReportBug_error agent sink now reason s e h⟩

/-- Witness for the amended claim C2 at a concrete state and sinks. -/
theorem claim_C2_reset_on_success_only_witness :
    autoReportBug (mkBugBoardAgent none "w") (fun _ => Except.ok "9") 7 "r"
      { outputs := ["o"], buildFailures := 2, lastActivity := 3 }
      = initialRetryState 7 ∧
    autoReportBug (mkBugBoardAgent none "w") (fun _ => Except.error "x") 7 "r"
      { outputs := ["o"], buildFailures := 2, lastActivity := 3 }
      = { outputs := ["o"], buildFailures := 2, lastActivity := 3 } :=
  ⟨(claim_C2_reset_on_success_only (mkBugBoardAgent none "w")
      (fun _ => Except.ok "9") 7 "r"
      { outputs := ["o"], buildFailures := 2, lastActivity := 3 }).1 "9" rfl,
   (claim_C2_reset_on_success_only (mkBugBoardAgent none "w")
      (fun _ => Except.error "x") 7 "r"
      { outputs := ["o"], buildFailures := 2, lastActivity := 3 }).2 "x" rfl⟩

/-- Claim C6: a sink failure during a manual `reportBug` call propagates to the
caller as the failed operation `.error e`, while the same failure during an
automatic escalation is caught inside `autoReportBug`, which returns normally
with the state unchanged (its type has no error channel at all). -/
theorem claim_C6_error_propagation (agent : BugBoardAgent) (sink : ReportSink)
    (now : Nat) (data : BugData) (reason : String) (s : RetryDetectionState)
    (e : String) (herr : ∀ b, sink b = .error e) :
    reportBug agent sink now data = .error e ∧
    autoReportBug agent sink now reason s = s := by
  constructor
  · unfold reportBug
    rw [herr]
  · exact autoReportBug_error agent sink now reason s e (herr _)

/-- Witness for claim C6 at a concrete failing sink. -/
theorem claim_C6_error_propagation_witness :
    reportBug (mkBugBoardAgent none "w") (fun _ => Except.error "boom") 1
      { input := "i", logs := "l", error := none } = .error "boom" ∧
    autoReportBug (mkBugBoardAgent none "w") (fun _ => Except.error "boom") 1 "r"
      (initialRetryState 0) = initialRetryState 0 :=
  claim_C6_error_propagation (mkBugBoardAgent none "w")
    (fun _ => Except.error "boom") 1 { input := "i", logs := "l", error := none }
    "r" (initialRetryState 0) "boom" (fun _ => rfl)

/-- Claim C7: against a sink that responds with identifier "42", a manual
`reportBug` call returns id "42" and a url that contains "42" (the url is the
configured `apiUrl` with "/api" removed, extended by "/bugs/" and the id). -/
theorem claim_C7_report_result (agent : BugBoardAgent) (sink : ReportSink)
    (now : Nat) (data : BugData) (hok : ∀ b, sink b = .ok "42") :
    reportBug agent sink now data
      = .ok { id := "42"
              url := jsReplaceFirst agent.apiUrl "/api" "" ++ "/bugs/" ++ "42" } ∧
    ("42" : String).data
      <:+: (jsReplaceFirst agent.apiUrl "/api" "" ++ "/bugs/" ++ "42").data := by
  constructor
  · unfold reportBug
    rw [hok]
  · rw [String.data_append]
    exact (List.suffix_append _ _).isInfix

/-- Witness for claim C7 at the default configuration. -/
theorem claim_C7_report_result_witness :
    reportBug (mkBugBoardAgent none "w") (fun _ => Except.ok "42") 0
      { input := "x", logs := "y", error := none }
      = .ok { id := "42", url := "https://bugboard.ai/bugs/42" } ∧
    ("42" : String).data <:+: ("https://bugboard.ai/bugs/42" : String).data := by
  have h := claim_C7_report_result (mkBugBoardAgent none "w")
    (fun _ => Except.ok "42") 0 { input := "x", logs := "y", error := none }
    (fun _ => rfl)
  exact h

/-- Claim C9 (frame properties): a `trackOutput` call that triggers no
escalation leaves `buildFailures` unchanged; a `trackBuildFailure` call that
triggers no escalation leaves `outputs` unchanged; and a manual `reportBug`
call never modifies the detection state. -/
theorem claim_C9_frame (agent : BugBoardAgent) (sink : ReportSink) (now : Nat)
    (o : String) (data : BugData) (s : RetryDetectionState) :
    ((trackOutput agent sink now o s).2 = [] →
      (trackOutput agent sink now o s).1.buildFailures = s.buildFailures) ∧
    ((trackBuildFailure agent sink now s).2 = [] →
      (trackBuildFailure agent sink now s).1.outputs = s.outputs) ∧
    (reportBugWithState agent sink now data s).2 = s := by
  refine ⟨?_, ?_, rfl⟩
  · intro h2
    rw [trackOutput_eq] at h2 ⊢
    cases hF : lastThreeRepeat (s.outputs ++ [o])
    · simp
    · rw [hF] at h2
      simp at h2
  · intro h2
    unfold trackBuildFailure at h2 ⊢
    by_cases h3 : 3 ≤ s.buildFailures + 1
    · rw [if_pos h3] at h2
      simp at h2
    · rw [if_neg h3]

theorem autoReportBug_lastActivity (agent : BugBoardAgent) (sink : ReportSink)
    (now : Nat) (reason : String) (s : RetryDetectionState)
    (h : s.lastActivity = now) :
    (autoReportBug agent sink now reason s).lastActivity = now := by
  unfold autoReportBug
  cases hX : reportBug agent sink now (autoBugData reason s)
  · simp only [hX]
    exact h
  · simp only [hX]
    rfl

theorem trackBuildFailure_eq (agent : BugBoardAgent) (sink : ReportSink)
    (now : Nat) (s : RetryDetectionState) :
    trackBuildFailure agent sink now s =
      (if 3 ≤ s.buildFailures + 1 then
        (autoReportBug agent sink now "Multiple build failures detected"
          ⟨s.outputs, s.buildFailures + 1, now⟩,
         ["Multiple build failures detected"])
      else (⟨s.outputs, s.buildFailures + 1, now⟩, [])) := rfl

theorem trackBuildFailure_no_fire (agent : BugBoardAgent) (sink : ReportSink)
    (now : Nat) (s : RetryDetectionState) (h : s.buildFailures + 1 < 3) :
    trackBuildFailure agent sink now s
      = (⟨s.outputs, s.buildFailures + 1, now⟩, []) := by
  rw [trackBuildFailure_eq, if_neg (by omega)]

theorem trackBuildFailure_fire (agent : BugBoardAgent) (sink : ReportSink)
    (now : Nat) (s : RetryDetectionState) (h : 3 ≤ s.buildFailures + 1) :
    trackBuildFailure agent sink now s
      = (autoReportBug agent sink now "Multiple build failures detected"
          ⟨s.outputs, s.buildFailures + 1, now⟩,
         ["Multiple build failures detected"]) := by
  rw [trackBuildFailure_eq, if_pos h]

/-- Claim C3: from a freshly reset state, three consecutive `trackOutput`
calls with identical text and a succeeding report sink trigger exactly one
automatic report, with reason "Agent stuck in output loop", and leave the
detection state empty. -/
theorem claim_C3_triple_output (agent : BugBoardAgent) (sink : ReportSink)
    (a i : String) (t0 t1 t2 t3 : Nat) (hok : ∀ b, sink b = .ok i) :
    runOps agent (initialRetryState t0)
      [.trackOut a sink t1, .trackOut a sink t2, .trackOut a sink t3]
      = (initialRetryState t3, ["Agent stuck in output loop"]) := by
  have e1 : trackOutput agent sink t1 a (initialRetryState t0)
      = (⟨[a], 0, t1⟩, []) := by
    rw [trackOutput_no_fire agent sink t1 a (initialRetryState t0)
      (lastThreeRepeat_short _ (by simp [initialRetryState]))]
    simp [initialRetryState]
  have e2 : trackOutput agent sink t2 a ⟨[a], 0, t1⟩
      = (⟨[a, a], 0, t2⟩, []) := by
    rw [trackOutput_no_fire agent sink t2 a ⟨[a], 0, t1⟩
      (lastThreeRepeat_short _ (by simp))]
    simp
  have e3 : trackOutput agent sink t3 a ⟨[a, a], 0, t2⟩
      = (initialRetryState t3, ["Agent stuck in output loop"]) := by
    rw [trackOutput_fire agent sink t3 a ⟨[a, a], 0, t2⟩ (lastThreeRepeat_aaa a)]
    rw [autoReportBug_ok agent sink t3 _ _ i (hok _)]
  simp [runOps, runOp, e1, e2, e3]

/-- Witness for claim C3 at concrete inputs. -/
theorem claim_C3_triple_output_witness :
    runOps (mkBugBoardAgent none "w") (initialRetryState 0)
      [.trackOut "x" (fun _ => Except.ok "1") 1,
       .trackOut "x" (fun _ => Except.ok "1") 2,
       .trackOut "x" (fun _ => Except.ok "1") 3]
      = (initialRetryState 3, ["Agent stuck in output loop"]) :=
  claim_C3_triple_output (mkBugBoardAgent none "w") (fun _ => Except.ok "1")
    "x" "1" 0 1 2 3 (fun _ => rfl)

/-- Claim C4: `trackBuildFailure` updates `lastActivity`, increments the
counter by one (visible when below the threshold), and reports with reason
"Multiple build failures detected" as soon as the incremented counter reaches
3; from a fresh state with a succeeding sink, three calls produce exactly one
automatic report and reset the counter to 0, and a fourth call produces no
second report, leaving the counter at 1. -/
theorem claim_C4_build_failures (agent : BugBoardAgent) (sinkOk : ReportSink)
    (i : String) (t0 t1 t2 t3 t4 : Nat) (hok : ∀ b, sinkOk b = .ok i) :
    (∀ (sink : ReportSink) (now : Nat) (s : RetryDetectionState),
      (trackBuildFailure agent sink now s).1.lastActivity = now ∧
      (s.buildFailures + 1 < 3 →
        trackBuildFailure agent sink now s
          = (⟨s.outputs, s.buildFailures + 1, now⟩, [])) ∧
      (3 ≤ s.buildFailures + 1 →
        (trackBuildFailure agent sink now s).2
          = ["Multiple build failures detected"])) ∧
    runOps agent (initialRetryState t0)
      [.trackFail sinkOk t1, .trackFail sinkOk t2, .trackFail sinkOk t3]
      = (initialRetryState t3, ["Multiple build failures detected"]) ∧
    runOps agent (initialRetryState t0)
      [.trackFail sinkOk t1, .trackFail sinkOk t2, .trackFail sinkOk t3,
       .trackFail sinkOk t4]
      = (⟨[], 1, t4⟩, ["Multiple build failures detected"]) := by
  have f1 : trackBuildFailure agent sinkOk t1 (initialRetryState t0)
      = (⟨[], 1, t1⟩, []) :=
    trackBuildFailure_no_fire agent sinkOk t1 (initialRetryState t0)
      (by simp [initialRetryState])
  have f2 : trackBuildFailure agent sinkOk t2 (⟨[], 1, t1⟩ : RetryDetectionState)
      = (⟨[], 2, t2⟩, []) :=
    trackBuildFailure_no_fire agent sinkOk t2 ⟨[], 1, t1⟩ (by simp)
  have f3 : trackBuildFailure agent sinkOk t3 (⟨[], 2, t2⟩ : RetryDetectionState)
      = (initialRetryState t3, ["Multiple build failures detected"]) := by
    rw [trackBuildFailure_fire agent sinkOk t3 ⟨[], 2, t2⟩ (by simp)]
    rw [autoReportBug_ok agent sinkOk t3 _ _ i (hok _)]
  have f4 : trackBuildFailure agent sinkOk t4 (initialRetryState t3)
      = (⟨[], 1, t4⟩, []) :=
    trackBuildFailure_no_fire agent sinkOk t4 (initialRetryState t3)
      (by simp [initialRetryState])
  refine ⟨?_, ?_, ?_⟩
  · intro sink now s
    refine ⟨?_, ?_, ?_⟩
    · by_cases h3 : 3 ≤ s.buildFailures + 1
      · rw [trackBuildFailure_fire agent sink now s h3]
        exact autoReportBug_lastActivity agent sink now _ _ rfl
      · rw [trackBuildFailure_no_fire agent sink now s (by omega)]
    · intro hlt
      exact trackBuildFailure_no_fire agent sink now s hlt
    · intro hge
      rw [trackBuildFailure_fire agent sink now s hge]
  · simp [runOps, runOp, f1, f2, f3]
  · simp [runOps, runOp, f1, f2, f3, f4]

/-- Witness for claim C4 at concrete inputs. -/
theorem claim_C4_build_failures_witness :
    (trackBuildFailure (mkBugBoardAgent none "w") (fun _ => Except.ok "1") 5
        (⟨["o"], 1, 0⟩ : RetryDetectionState)).1.lastActivity = 5 ∧
    trackBuildFailure (mkBugBoardAgent none "w") (fun _ => Except.ok "1") 5
        (⟨["o"], 0, 0⟩ : RetryDetectionState) = (⟨["o"], 1, 5⟩, []) ∧
    (trackBuildFailure (mkBugBoardAgent none "w") (fun _ => Except.ok "1") 5
        (⟨["o"], 2, 0⟩ : RetryDetectionState)).2
      = ["Multiple build failures detected"] ∧
    runOps (mkBugBoardAgent none "w") (initialRetryState 0)
      [.trackFail (fun _ => Except.ok "1") 1, .trackFail (fun _ => Except.ok "1") 2,
       .trackFail (fun _ => Except.ok "1") 3]
      = (initialRetryState 3, ["Multiple build failures detected"]) := by
  obtain ⟨hper, hs1, hs2⟩ := claim_C4_build_failures (mkBugBoardAgent none "w")
    (fun _ => Except.ok "1") "1" 0 1 2 3 4 (fun _ => rfl)
  exact ⟨(hper (fun _ => Except.ok "1") 5 ⟨["o"], 1, 0⟩).1,
    (hper (fun _ => Except.ok "1") 5 ⟨["o"], 0, 0⟩).2.1 (by decide),
    (hper (fun _ => Except.ok "1") 5 ⟨["o"], 2, 0⟩).2.2 (by decide), hs1⟩

/-- Witness for claim C9 at concrete inputs. -/
theorem claim_C9_frame_witness :
    (trackOutput (mkBugBoardAgent none "w") (fun _ => Except.ok "1") 1 "x"
        (initialRetryState 0)).1.buildFailures
      = (initialRetryState 0).buildFailures ∧
    (trackBuildFailure (mkBugBoardAgent none "w") (fun _ => Except.ok "1") 1
        (initialRetryState 0)).1.outputs = (initialRetryState 0).outputs ∧
    (reportBugWithState (mkBugBoardAgent none "w") (fun _ => Except.ok "1") 1
        { input := "i", logs := "l", error := none } (initialRetryState 0)).2
      = initialRetryState 0 := by
  have h := claim_C9_frame (mkBugBoardAgent none "w") (fun _ => Except.ok "1") 1
    "x" { input := "i", logs := "l", error := none } (initialRetryState 0)
  exact ⟨h.1 (by decide), h.2.1 (by decide), h.2.2⟩

theorem autoReportBug_cases (agent : BugBoardAgent) (sink : ReportSink)
    (now : Nat) (reason : String) (s : RetryDetectionState) :
    autoReportBug agent sink now reason s = initialRetryState now ∨
    autoReportBug agent sink now reason s = s := by
  unfold autoReportBug
  cases hX : reportBug agent sink now (autoBugData reason s)
  · right
    simp only [hX]
  · left
    simp only [hX]
    rfl

theorem runOps_outputs_takeLast (agent : BugBoardAgent) :
    ∀ (ops : List AgentOp) (s : RetryDetectionState) (acc : List String),
      s.outputs = takeLast 5 acc →
      (runOps agent s ops).1.outputs
        = takeLast 5 (outputsSinceReset agent s acc ops) := by
  intro ops
  induction ops with
  | nil =>
    intro s acc h
    exact h
  | cons op rest ih =>
    intro s acc h
    cases op with
    | trackOut o sink now =>
      simp only [runOps, outputsSinceReset, runOp]
      apply ih
      cases hF : lastThreeRepeat (s.outputs ++ [o])
      · simp only [trackOutput_no_fire agent sink now o s hF]
        have hne := trim_push_ne_nil s.outputs o
        rw [if_neg (fun hEq => hne (List.isEmpty_iff.mp hEq))]
        exact takeLast_push acc o s.outputs h
      · simp only [trackOutput_fire agent sink now o s hF]
        rcases autoReportBug_cases agent sink now "Agent stuck in output loop"
          ⟨if 5 < (s.outputs ++ [o]).length then (s.outputs ++ [o]).drop 1
            else s.outputs ++ [o], s.buildFailures, now⟩ with hO | hO
        · simp only [hO, initialRetryState]
          simp [takeLast_nil]
        · simp only [hO]
          have hne := trim_push_ne_nil s.outputs o
          rw [if_neg (fun hEq => hne (List.isEmpty_iff.mp hEq))]
          exact takeLast_push acc o s.outputs h
    | trackFail sink now =>
      simp only [runOps, outputsSinceReset, runOp]
      apply ih
      by_cases h3 : 3 ≤ s.buildFailures + 1
      · simp only [trackBuildFailure_fire agent sink now s h3]
        rcases autoReportBug_cases agent sink now "Multiple build failures detected"
          ⟨s.outputs, s.buildFailures + 1, now⟩ with hO | hO
        · simp only [hO, initialRetryState]
          simp [takeLast_nil]
        · simp only [hO]
          rw [if_neg (by omega)]
          exact h
      · simp only [trackBuildFailure_no_fire agent sink now s (by omega)]
        rw [if_neg (by omega)]
        exact h
    | reset now =>
      simp only [runOps, outputsSinceReset, runOp]
      apply ih
      rw [takeLast_nil]
      rfl
    | manualReport data sink now =>
      simp only [runOps, outputsSinceReset, runOp, reportBugWithState]
      apply ih
      exact h

/-- Claim C5: for every operation sequence, the retained output history never
exceeds 5 entries and always equals the most recently tracked outputs since
the last reset event, in arrival order with the oldest evicted first (the last
5 of the `outputsSinceReset` ghost sequence). -/
theorem claim_C5_bounded_history (agent : BugBoardAgent) (t0 : Nat)
    (ops : List AgentOp) :
    (runOps agent (initialRetryState t0) ops).1.outputs.length ≤ 5 ∧
    (runOps agent (initialRetryState t0) ops).1.outputs
      = takeLast 5 (outputsSinceReset agent (initialRetryState t0) [] ops) := by
  have h := runOps_outputs_takeLast agent ops (initialRetryState t0) []
    (by rw [takeLast_nil]; rfl)
  refine ⟨?_, h⟩
  rw [h]
  exact takeLast_length_le 5 _

theorem ne_append_singleton_of_getLast (l : List α) (a : α)
    (h : l.getLast? ≠ some a) : ∀ W, l ≠ W ++ [a] := by
  intro W hc
  apply h
  rw [hc]
  simp

/-- Claim C8 counterexample: from the reachable state that already holds one
earlier "a", the sequence trackOutput("a"), trackOutput("a"), trackOutput("b")
does trigger an automatic report — the second of the three calls completes
three identical outputs in a row — so the claim fails for arbitrary reached
states. -/
theorem claim_C8_counterexample :
    (runOps (mkBugBoardAgent none "agent")
      (runOps (mkBugBoardAgent none "agent") (initialRetryState 0)
        [.trackOut "a" (fun _ => Except.ok "1") 1]).1
      [.trackOut "a" (fun _ => Except.ok "1") 2,
       .trackOut "a" (fun _ => Except.ok "1") 3,
       .trackOut "b" (fun _ => Except.ok "1") 4]).2
      = ["Agent stuck in output loop"] := by
  decide

/-- Claim C8 (amended): from any detector state whose output history does not
already end with the repeated text — in particular any freshly reset state —
two consecutive `trackOutput` calls with identical text followed by one with
distinct text trigger no automatic report. -/
theorem claim_C8_two_then_distinct (agent : BugBoardAgent)
    (s : RetryDetectionState) (a b : String) (k1 k2 k3 : ReportSink)
    (t1 t2 t3 : Nat) (hLast : s.outputs.getLast? ≠ some a) (hab : a ≠ b) :
    (runOps agent s
      [.trackOut a k1 t1, .trackOut a k2 t2, .trackOut b k3 t3]).2 = [] := by
  have hEnd : ∀ W, s.outputs ≠ W ++ [a] :=
    ne_append_singleton_of_getLast s.outputs a hLast
  have h1 : lastThreeRepeat (s.outputs ++ [a]) = false :=
    lastThreeRepeat_push_false s.outputs a hEnd
  have e1 := trackOutput_no_fire agent k1 t1 a s h1
  obtain ⟨X1, hX1, hX1or⟩ := trim_push_shape s.outputs a
  rw [hX1] at e1
  have hEnd1 : ∀ W, X1 ≠ W ++ [a] := by
    intro W
    rcases hX1or with hx | ⟨h5, hx⟩
    · rw [hx]
      exact hEnd W
    · rw [hx]
      exact not_ends_drop s.outputs a 1 hEnd W
  have h2 : lastThreeRepeat ((X1 ++ [a]) ++ [a]) = false :=
    lastThreeRepeat_push2_false X1 a hEnd1
  have e2 := trackOutput_no_fire agent k2 t2 a ⟨X1 ++ [a], s.buildFailures, t1⟩ h2
  obtain ⟨Y, hY, hYor⟩ := trim_push_shape (X1 ++ [a]) a
  simp only [] at e2
  rw [hY] at e2
  have hX2ex : ∃ X2, Y = X2 ++ [a] := by
    rcases hYor with hy | ⟨h5, hy⟩
    · exact ⟨X1, hy⟩
    · refine ⟨X1.drop 1, ?_⟩
      rw [hy]
      apply List.drop_append_of_le_length
      simp only [List.length_append, List.length_singleton] at h5
      omega
  obtain ⟨X2, hX2⟩ := hX2ex
  rw [hX2] at e2
  have h3 : lastThreeRepeat (((X2 ++ [a]) ++ [a]) ++ [b]) = false :=
    lastThreeRepeat_aab_false X2 a b hab
  have e3 := trackOutput_no_fire agent k3 t3 b
    ⟨(X2 ++ [a]) ++ [a], s.buildFailures, t2⟩ h3
  simp at e3
  simp [runOps, runOp, e1, e2, e3]

/-- Witness for the amended claim C8 at concrete inputs. -/
theorem claim_C8_two_then_distinct_witness :
    (runOps (mkBugBoardAgent none "w") (⟨["z"], 0, 0⟩ : RetryDetectionState)
      [.trackOut "a" (fun _ => Except.ok "1") 1,
       .trackOut "a" (fun _ => Except.ok "1") 2,
       .trackOut "b" (fun _ => Except.ok "1") 3]).2 = [] :=
  claim_C8_two_then_distinct (mkBugBoardAgent none "w") ⟨["z"], 0, 0⟩ "a" "b"
    (fun _ => Except.ok "1") (fun _ => Except.ok "1") (fun _ => Except.ok "1")
    1 2 3 (by decide) (by decide)

theorem replaceFirstList_of_isPrefixOf (s pat rep : List Char)
    (h : pat.isPrefixOf s = true) :
    replaceFirstList s pat rep = rep ++ s.drop pat.length := by
  cases s with
  | nil =>
    unfold replaceFirstList
    rw [if_pos h]
    simp
  | cons c rest =>
    unfold replaceFirstList
    rw [if_pos h]

theorem replaceFirstList_cons_not (c : Char) (rest pat rep : List Char)
    (h : pat.isPrefixOf (c :: rest) = false) :
    replaceFirstList (c :: rest) pat rep = c :: replaceFirstList rest pat rep := by
  conv_lhs => rw [replaceFirstList]
  rw [if_neg (by simp [h])]

theorem replaceFirstList_no_occurrence (pat rep : List Char) :
    ∀ s : List Char, ¬ pat <:+: s → replaceFirstList s pat rep = s := by
  intro s
  induction s with
  | nil =>
    intro h
    unfold replaceFirstList
    rw [if_neg]
    intro hp
    apply h
    have hnil : pat = [] := List.prefix_nil.mp (List.isPrefixOf_iff_prefix.mp hp)
    rw [hnil]
  | cons c rest ih =>
    intro h
    have hp : pat.isPrefixOf (c :: rest) = false := by
      by_contra hcon
      have hpre : pat <+: c :: rest :=
        List.isPrefixOf_iff_prefix.mp (Bool.not_eq_false _ ▸ hcon)
      exact h hpre.isInfix
    rw [replaceFirstList_cons_not c rest pat rep hp,
      ih (fun hinf => h (List.infix_cons hinf))]

theorem replaceFirstList_first_occurrence (pat rep B : List Char) :
    ∀ (A s : List Char), s = A ++ pat ++ B →
      (∀ n, n < A.length → ¬ pat <+: s.drop n) →
      replaceFirstList s pat rep = A ++ rep ++ B := by
  intro A
  induction A with
  | nil =>
    intro s hs hfirst
    subst hs
    simp only [List.nil_append]
    rw [replaceFirstList_of_isPrefixOf _ _ _
      (List.isPrefixOf_iff_prefix.mpr (List.prefix_append pat B))]
    simp [List.drop_left]
  | cons c A' ih =>
    intro s hs hfirst
    subst hs
    have hp : pat.isPrefixOf (c :: (A' ++ pat ++ B)) = false := by
      by_contra hcon
      have hpre : pat <+: ((c :: A') ++ pat ++ B) :=
        List.isPrefixOf_iff_prefix.mp (Bool.not_eq_false _ ▸ hcon)
      exact hfirst 0 (by simp) (by simpa using hpre)
    have hcons : (c :: A') ++ pat ++ B = c :: (A' ++ pat ++ B) := by simp
    rw [hcons, replaceFirstList_cons_not c (A' ++ pat ++ B) pat rep hp,
      ih (A' ++ pat ++ B) rfl ?_]
    · simp
    · intro n hn
      have hf := hfirst (n + 1) (by simp; omega)
      simpa using hf

/-- Claim C10: the url returned by `reportBug` is the configured `apiUrl` with
only the first occurrence of "/api" removed, concatenated with "/bugs/" and
the sink's identifier; if "/api" never occurs the base is `apiUrl` itself, and
the removal happens at the first occurrence wherever it lies in the string. -/
theorem claim_C10_url_replace (agent : BugBoardAgent) (sink : ReportSink)
    (now : Nat) (data : BugData) (i : String) (hok : ∀ b, sink b = .ok i)
    (A B : List Char)
    (hsplit : agent.apiUrl.data = A ++ ("/api" : String).data ++ B)
    (hfirst : ∀ n, n < A.length →
      ¬ ("/api" : String).data <+: agent.apiUrl.data.drop n) :
    reportBug agent sink now data
      = .ok { id := i
              url := jsReplaceFirst agent.apiUrl "/api" "" ++ "/bugs/" ++ i } ∧
    (jsReplaceFirst agent.apiUrl "/api" "").data = A ++ B ∧
    (∀ u : String, ¬ ("/api" : String).data <:+: u.data →
      jsReplaceFirst u "/api" "" = u) := by
  refine ⟨?_, ?_, ?_⟩
  · unfold reportBug
    rw [hok]
  · show replaceFirstList agent.apiUrl.data ("/api" : String).data [] = A ++ B
    rw [replaceFirstList_first_occurrence ("/api" : String).data [] B A
      agent.apiUrl.data hsplit hfirst]
    simp
  · intro u hinf
    show (⟨replaceFirstList u.data ("/api" : String).data []⟩ : String) = u
    rw [replaceFirstList_no_occurrence _ _ u.data hinf]

/-- Witness for claim C10: an `apiUrl` in which "/api" occurs twice, the first
time inside the host part, and an `apiUrl` without any occurrence. -/
theorem claim_C10_url_replace_witness :
    reportBug (mkBugBoardAgent (some "x/apiy/api") "w") (fun _ => Except.ok "7") 0
      { input := "a", logs := "b", error := none }
      = .ok { id := "7"
              url := jsReplaceFirst "x/apiy/api" "/api" "" ++ "/bugs/" ++ "7" } ∧
    (jsReplaceFirst "x/apiy/api" "/api" "").data
      = ("x" : String).data ++ ("y/api" : String).data ∧
    jsReplaceFirst "nohit" "/api" "" = "nohit" := by
  have h := claim_C10_url_replace (mkBugBoardAgent (some "x/apiy/api") "w")
    (fun _ => Except.ok "7") 0 { input := "a", logs := "b", error := none } "7"
    (fun _ => rfl) ("x" : String).data ("y/api" : String).data
    (by decide) (by decide)
  exact ⟨h.1, h.2.1, h.2.2 "nohit" (by decide)⟩
